import Mathlib

/-!
Shallow embedding of src/AudioSegment/audio_segment.go (godub).

Bytes are modelled as natural numbers, Go byte buffers as lists, a Go
nil pointer to a byte slice as the value none. Go int values are
modelled as Int or Nat (they stay far below 2 to the 63 here); the
uint32 positions of the wav chunk scanner wrap modulo 2 to the 32,
written out explicitly. Runtime aborts (slice bounds, nil dereference,
the explicit crossfade bound panic calls identified by their messages)
are values of an outcome type, as is the missing return statement at
the end of the crossfade branch of AppendCrossfage.
-/

namespace Godub

/-- Kinds of runtime aborts the Go code can perform: the untyped slice
bounds and nil dereference aborts of the Go runtime, and the two
explicit crossfade bound aborts in AppendCrossfage, identified by their
formatted messages. -/
inductive GoPanic where
  | runtimeBounds
  | nilDeref
  | crossfadeExceedsSource
  | crossfadeExceedsAppended
deriving DecidableEq

/-- Outcome of running a Go function: a returned value, an aborting
runtime or explicit abort, the missing return statement at the end of
AppendCrossfage, or a value the Go program leaves unspecified (the int
conversion of a float NaN or infinity). -/
inductive Res (α : Type) where
  | ok : α → Res α
  | panic : GoPanic → Res α
  | missingReturn : Res α
  | undef : Res α
deriving DecidableEq

/-- Sequencing of Go evaluation: an abort propagates, a returned value
feeds the continuation. -/
def Res.bind {α β : Type} (r : Res α) (f : α → Res β) : Res β :=
  match r with
  | Res.ok a => f a
  | Res.panic e => Res.panic e
  | Res.missingReturn => Res.missingReturn
  | Res.undef => Res.undef

/-- The Go struct AudioSegment: a pointer to the PCM byte buffer plus
channel, rate and width metadata. data none models a nil byte slice
pointer, the zero value of the data field. -/
structure AudioSegment where
  data : Option (List Nat)
  channels : Nat
  frame_rate : Nat
  frame_width : Nat
  sample_width : Nat
deriving DecidableEq

/-- The Go struct WavSubChunk: tag bytes, byte position of the chunk
header, declared body size. -/
structure WavSubChunk where
  id : List Nat
  position : Nat
  size : Nat
deriving DecidableEq

/-- Reduction modulo 2 to the 32, the wraparound of Go uint32
arithmetic. -/
def u32 (n : Nat) : Nat := n % 4294967296

/-- Go bytes2UInt with binary.LittleEndian: four bytes decode to a
little endian uint32; on fewer bytes binary.Read errors out and the
zero initialised value is returned. -/
def bytes2UInt (b : List Nat) : Nat :=
  match b with
  | [b0, b1, b2, b3] => b0 + 256 * b1 + 65536 * b2 + 16777216 * b3
  | _ => 0

/-- Go FrameCount: len of the dereferenced data divided by frame_width
as Go ints. A nil data pointer (dereference abort) or frame_width = 0
(integer division by zero abort) leaves the value undefined, modelled
as none; both operands are nonnegative so Go and Nat division agree. -/
def FrameCount (p : AudioSegment) : Option Nat :=
  match p.data with
  | none => none
  | some d => if p.frame_width = 0 then none else some (d.length / p.frame_width)

/-- Go FrameCountMs: ms times the quotient of int(frame_rate) by the
constant 1000.0. The untyped constant is converted to int, so the
division truncates before the multiplication. -/
def FrameCountMs (p : AudioSegment) (ms : Int) : Int :=
  ms * ((p.frame_rate / 1000 : Nat) : Int)

/-- Go Len: int(math.Round(1000 * float64(FrameCount) / float64(frame_rate))).
At these magnitudes the float64 computation is exact rational
arithmetic, and math.Round rounds half away from zero, which on
nonnegative values is the integer quotient (2000 * fc + fr) / (2 * fr).
A zero frame_rate (the division yields NaN or infinity and the int
conversion is unspecified) and an undefined FrameCount are modelled as
none. -/
def Len (p : AudioSegment) : Option Nat :=
  match FrameCount p with
  | none => none
  | some fc =>
      if p.frame_rate = 0 then none
      else some ((2000 * fc + p.frame_rate) / (2 * p.frame_rate))

/-- Go spawn: copies the struct and replaces the data pointer. -/
def spawn (p : AudioSegment) (d : Option (List Nat)) : AudioSegment :=
  ⟨d, p.channels, p.frame_rate, p.frame_width, p.sample_width⟩

/-- Go Slice: the body slices the dereferenced byte buffer directly with
the given endpoints and spawns the result. The endpoints are used as raw
byte indices (parsePosition is never called); the Go runtime aborts when
start is negative, start exceeds end, or end exceeds the length.
Capacity is modelled as equal to length. -/
def Slice (p : AudioSegment) (start stop : Int) : Res AudioSegment :=
  match p.data with
  | none => Res.panic GoPanic.nilDeref
  | some d =>
      if 0 ≤ start ∧ start ≤ stop ∧ stop ≤ (d.length : Int) then
        Res.ok (spawn p (some ((d.drop start.toNat).take (stop - start).toNat)))
      else Res.panic GoPanic.runtimeBounds

/-- Go parsePosition: resolves a negative position to Len() + val and
converts the result to frames with FrameCountMs. Present in the source
but never called by Slice. -/
def parsePosition (p : AudioSegment) (val : Int) : Option Int :=
  if val < 0 then
    match Len p with
    | none => none
    | some l => some (FrameCountMs p ((l : Int) + val))
  else some (FrameCountMs p val)

/-- Go Overlay: the body is return p; the argument is ignored, nothing
is mixed and no length or format check is performed. -/
def Overlay (p seg : AudioSegment) : AudioSegment := p

/-- Go Fade: the body is return p; no gain ramp is applied. -/
def Fade (p : AudioSegment) : AudioSegment := p

/-- Go AppendCrossfage. With crossfade 0 it returns the byte
concatenation under the receiver metadata. Otherwise, after the two
bound checks (explicit aborts whose messages name the original and the
appended segment), the code slices with raw millisecond values as byte
indices, applies the no-op Fade and Overlay, discards the result, and
reaches the end of the function without a return statement. Len of a
degenerate segment (nil data or zero frame_rate) inside the bound
checks is left unmodelled as Res.undef. -/
def AppendCrossfage (p seg : AudioSegment) (crossfade : Int) : Res AudioSegment :=
  if crossfade = 0 then
    match p.data, seg.data with
    | some d1, some d2 => Res.ok (spawn p (some (d1 ++ d2)))
    | _, _ => Res.panic GoPanic.nilDeref
  else
    match Len p with
    | none => Res.undef
    | some lp =>
        if (lp : Int) < crossfade then Res.panic GoPanic.crossfadeExceedsSource
        else
          match Len seg with
          | none => Res.undef
          | some ls =>
              if (ls : Int) < crossfade then Res.panic GoPanic.crossfadeExceedsAppended
              else
                Res.bind (Slice p (-crossfade) (lp : Int)) (fun xf =>
                  Res.bind (Slice seg 0 crossfade) (fun head =>
                    let _ := Overlay (Fade xf) (Fade head)
                    Res.missingReturn))

/-- Go Append: delegates to AppendCrossfage with crossfade 0. -/
def Append (p seg : AudioSegment) : Res AudioSegment :=
  AppendCrossfage p seg 0

/-- Visible outcome of Go Export: writing the segment as a wav file, or
returning without any action and without an error. -/
inductive ExportOutcome where
  | wroteWav : AudioSegment → ExportOutcome
  | silentNoop : ExportOutcome
deriving DecidableEq

/-- Go Export: the body is a single if on format == wav that creates the
file and writes the segment; there is no other branch, so any other
format returns with no action and no error. -/
def Export (p : AudioSegment) (format : String) : ExportOutcome :=
  if format = "wav" then ExportOutcome.wroteWav p else ExportOutcome.silentNoop

/-- Visible outcome of Go From_file: decoding the named wav file, or
returning a nil segment without an error value. -/
inductive FromFileOutcome where
  | decodedWav : String → FromFileOutcome
  | nilNoError : FromFileOutcome
deriving DecidableEq

/-- Go From_file: format wav decodes the file through from_safe_wav;
the only other path is return nil, with no error value. -/
def From_file (file format : String) : FromFileOutcome :=
  if format = "wav" then FromFileOutcome.decodedWav file else FromFileOutcome.nilNoError

/-- Loop of Go extract_wav_headers: while pos + 8 < uint32(len(data)) in
uint32 arithmetic and fewer than 10 chunks are recorded, read a 4 byte
tag and a little endian 4 byte size at pos, record the descriptor, stop
after a data tag, otherwise advance pos by size + 8 with uint32
wraparound. The guard is the Go loop guard verbatim; the structural fuel
argument starts at 10 and decreases exactly once per recorded chunk
while the recorded count increases once, so fuel cannot reach 0 strictly
before the count reaches 10 and the fuel bound never cuts the loop
short. -/
def scanLoop (data : List Nat) : Nat → List WavSubChunk → Nat → List WavSubChunk
  | _, acc, 0 => acc
  | pos, acc, fuel + 1 =>
    if u32 (pos + 8) < u32 data.length ∧ acc.length < 10 then
      let id := (data.drop pos).take 4
      let size := bytes2UInt ((data.drop (pos + 4)).take 4)
      if id = [100, 97, 116, 97] then acc ++ [⟨id, pos, size⟩]
      else scanLoop data (u32 (pos + size + 8)) (acc ++ [⟨id, pos, size⟩]) fuel
    else acc

/-- Go extract_wav_headers: scan the chunk list from byte offset 12. -/
def extract_wav_headers (data : List Nat) : List WavSubChunk :=
  scanLoop data 12 [] 10

/-- Go NewAudioSegment: returns the zero value of the struct, with a
nil data pointer and zero metadata. -/
def NewAudioSegment : AudioSegment :=
  ⟨none, 0, 0, 0, 0⟩

/-! ## Concrete segments and buffers used by the claim theorems -/

/-- Source segment for the C1 evaluation: 4 bytes, mono, 1000 Hz, 1 byte
frames, hence 4 ms. -/
def segC1a : AudioSegment := ⟨some [10, 20, 30, 40], 1, 1000, 1, 1⟩

/-- Appended segment for the C1 evaluation: 4 bytes, mono, 1000 Hz, 4 ms. -/
def segC1b : AudioSegment := ⟨some [50, 60, 70, 80], 1, 1000, 1, 1⟩

/-- Segment for the C2 evaluation: one 1 byte frame at 500 Hz. -/
def segC2 : AudioSegment := ⟨some [7], 1, 500, 1, 1⟩

/-- Segment for the C3 evaluation: 8 bytes, mono, 1000 Hz, 8 ms. -/
def segC3 : AudioSegment := ⟨some [1, 2, 3, 4, 5, 6, 7, 8], 1, 1000, 1, 1⟩

/-- Segment for the C4 evaluation: 16 bytes, stereo, 1000 Hz, 2 byte
frames, 8 ms. -/
def segC4 : AudioSegment :=
  ⟨some [1, 2, 3, 4, 5, 6, 7, 8, 9, 10, 11, 12, 13, 14, 15, 16], 2, 1000, 2, 1⟩

/-- One frame segment with sample value 100 for the C5 evaluation. -/
def segC5a : AudioSegment := ⟨some [100], 1, 1000, 1, 1⟩

/-- Two frame segment for the C5 evaluation, of a length different from
segC5a. -/
def segC5b : AudioSegment := ⟨some [100, 50], 1, 1000, 1, 1⟩

/-- Source segment for the C6 witness: 2 bytes, mono, 1000 Hz, 2 ms. -/
def segC6a : AudioSegment := ⟨some [1, 2], 1, 1000, 1, 1⟩

/-- Appended segment for the C6 witness: empty buffer, 0 ms. -/
def segC6b : AudioSegment := ⟨some [], 1, 1000, 1, 1⟩

/-- Segment for the C7 counterexample: one 1 byte frame at 3000 Hz,
whose rounded duration is 0 ms. -/
def segC7cx : AudioSegment := ⟨some [0], 1, 3000, 1, 1⟩

/-- Source segment for the C7 witness: 2 bytes, mono, 1000 Hz. -/
def segC7a : AudioSegment := ⟨some [1, 2], 1, 1000, 1, 1⟩

/-- Appended segment for the C7 witness: 1 byte, mono, 1000 Hz. -/
def segC7b : AudioSegment := ⟨some [3], 1, 1000, 1, 1⟩

/-- Buffer for the C8 counterexample: a 12 byte container header
followed by exactly one 8 byte chunk header carrying the data tag, 20
bytes in total, so exactly 8 bytes remain at scan position 12. -/
def ex20 : List Nat := List.replicate 12 0 ++ [100, 97, 116, 97, 0, 0, 0, 0]

/-- Buffer for the C8 witness: header, an 8 byte fmt chunk header with
declared size 2, its 2 body bytes, the data chunk header with declared
size 5 at position 22, and 5 body bytes. -/
def buf8 : List Nat :=
  List.replicate 12 0 ++ [102, 109, 116, 32, 2, 0, 0, 0] ++ [9, 9] ++
    [100, 97, 116, 97, 5, 0, 0, 0] ++ [1, 2, 3, 4, 5]

/-- Segment for the C9 witness. -/
def segC9 : AudioSegment := ⟨some [1], 1, 8000, 1, 1⟩

/-- Segment for the C10 witness: non nil buffer, positive width and
rate. -/
def segC10 : AudioSegment := ⟨some [5], 1, 8000, 1, 1⟩

/-! ## Helper lemmas -/

/-- Rounding of a sum of durations: half up rounded quotients of u and v
by 2r differ from the rounded quotient of u + v by at most one. Used for
the amended concatenation additivity of C7. -/
theorem div_near (u v r : Nat) (hr : 0 < r) :
    (u + r) / (2 * r) + (v + r) / (2 * r) ≤ (u + v + r) / (2 * r) + 1 ∧
    (u + v + r) / (2 * r) ≤ (u + r) / (2 * r) + (v + r) / (2 * r) + 1 := by
  have hd : 0 < 2 * r := by omega
  constructor
  · have e1 : ((u + r) / (2 * r)) * (2 * r) ≤ u + r := Nat.div_mul_le_self _ _
    have e2 : ((v + r) / (2 * r)) * (2 * r) ≤ v + r := Nat.div_mul_le_self _ _
    have h2 : (u + r) / (2 * r) + (v + r) / (2 * r) ≤ (u + v + r + r) / (2 * r) := by
      rw [Nat.le_div_iff_mul_le hd, Nat.add_mul]
      omega
    have h3 : (u + v + r + r) / (2 * r) ≤ (u + v + r + 2 * r) / (2 * r) :=
      Nat.div_le_div_right (by omega)
    have h4 : (u + v + r + 2 * r) / (2 * r) = (u + v + r) / (2 * r) + 1 :=
      Nat.add_div_right _ hd
    omega
  · have h5 : (u + v + r) / (2 * r) ≤ ((u + r) + (v + r)) / (2 * r) :=
      Nat.div_le_div_right (by omega)
    have h6 : ((u + r) + (v + r)) / (2 * r) ≤ (u + r) / (2 * r) + (v + r) / (2 * r) + 1 := by
      rw [Nat.add_div hd]
      split <;> omega
    omega

/-- One iteration of the chunk scanner loop when the loop guard holds:
the descriptor at pos is recorded, and the scan either stops on the data
tag or continues at the advanced position. -/
theorem scanLoop_step (data : List Nat) (pos : Nat) (acc : List WavSubChunk) (fuel : Nat)
    (hg : u32 (pos + 8) < u32 data.length) (hacc : acc.length < 10) :
    scanLoop data pos acc (fuel + 1) =
      if (data.drop pos).take 4 = [100, 97, 116, 97]
      then acc ++ [⟨(data.drop pos).take 4, pos, bytes2UInt ((data.drop (pos + 4)).take 4)⟩]
      else scanLoop data (u32 (pos + bytes2UInt ((data.drop (pos + 4)).take 4) + 8))
             (acc ++ [⟨(data.drop pos).take 4, pos, bytes2UInt ((data.drop (pos + 4)).take 4)⟩]) fuel := by
  simp [scanLoop, hg, hacc]

/-! ## Claim theorems -/

/-- C1: evaluating AppendCrossfage on a 4 ms source and a 4 ms appended
segment with a 2 ms crossfade, a value inside the claimed bounds, the
code reaches Slice with endpoints (-2, 4), whose negative raw byte index
triggers the untyped runtime bounds abort, so no three part concatenated
result of duration 6 ms is produced; the crossfade path of the code
cannot return a segment (Fade and Overlay are identity no-ops and the
branch has no return statement). -/
theorem c1_crossfade_path_panics :
    AppendCrossfage segC1a segC1b 2 = Res.panic GoPanic.runtimeBounds ∧
    Len segC1a = some 4 ∧ Len segC1b = some 4 := by decide

/-- C2: with frame_rate 500 the code computes FrameCountMs ms as
ms * (500 / 1000) = 0 by integer truncation, so the conversion of the
full duration 2 ms yields 0 frames although the segment holds 1 frame:
frames_for_ms of duration_ms differs from frame_count and the
conversion is truncating, not real valued. -/
theorem c2_frames_for_ms_truncates :
    FrameCount segC2 = some 1 ∧ Len segC2 = some 2 ∧ FrameCountMs segC2 2 = 0 := by decide

/-- C3: on an 8 ms segment, Slice with endpoints (-2, 8) hits the
untyped runtime bounds abort on the negative index while Slice with the
equivalent endpoints (6, 8) succeeds: Slice passes endpoints directly to
the byte slice expression and never applies the negative resolution of
parsePosition, so the claimed symmetry fails. -/
theorem c3_negative_slice_panics :
    Len segC3 = some 8 ∧
    Slice segC3 (-2) 8 = Res.panic GoPanic.runtimeBounds ∧
    Slice segC3 6 8 = Res.ok (spawn segC3 (some [7, 8])) := by decide

/-- C4: Slice treats millisecond endpoints as raw byte offsets and
aborts through the untyped runtime bounds abort: on an 8 ms stereo
segment of 16 bytes, Slice 0 4 returns the raw bytes 0 to 4, a segment
of 2 ms instead of the resolved 4 ms byte range, and Slice 0 100 aborts
with the runtime abort instead of a typed SliceOutOfRange error. -/
theorem c4_slice_untyped_byte_range :
    Slice segC4 0 4 = Res.ok (spawn segC4 (some [1, 2, 3, 4])) ∧
    Len (spawn segC4 (some [1, 2, 3, 4])) = some 2 ∧
    Slice segC4 0 100 = Res.panic GoPanic.runtimeBounds := by decide

/-- C5: Overlay ignores its argument and returns the receiver: two
sample values 100 are not summed (the result keeps the buffer [100],
not a saturating mix), a one frame segment overlaid with a two frame
segment raises no SegmentLengthMismatch or IncompatibleFormat, and Fade
is likewise the identity. -/
theorem c5_overlay_fade_noop :
    Overlay segC5a segC5b = segC5a ∧ (Overlay segC5a segC5b).data = some [100] ∧
    Fade segC5a = segC5a := by decide

/-- C6: whenever both durations are defined, AppendCrossfage fails with
the abort whose message names the original segment when the crossfade
exceeds the source duration, and with the abort naming the appended
segment when the crossfade is within the source duration but exceeds
the appended duration; in both cases no segment value is returned. -/
theorem c6_crossfade_bound_enforcement (a b : AudioSegment) (cf : Int) (la lb : Nat)
    (ha : Len a = some la) (hb : Len b = some lb) :
    ((la : Int) < cf → AppendCrossfage a b cf = Res.panic GoPanic.crossfadeExceedsSource) ∧
    (cf ≤ (la : Int) → (lb : Int) < cf →
      AppendCrossfage a b cf = Res.panic GoPanic.crossfadeExceedsAppended) := by
  constructor
  · intro h
    have hne : ¬ cf = 0 := by omega
    simp only [AppendCrossfage, if_neg hne, ha]
    simp [h]
  · intro h1 h2
    have hne : ¬ cf = 0 := by omega
    simp only [AppendCrossfage, if_neg hne, ha, hb]
    simp [h2, not_lt.mpr h1]

/-- Witness for C6: a 5 ms crossfade on a 2 ms source aborts on the
source bound, and a 1 ms crossfade onto a 0 ms appended segment aborts
on the appended bound. -/
theorem c6_crossfade_bound_enforcement_witness :
    AppendCrossfage segC6a segC6b 5 = Res.panic GoPanic.crossfadeExceedsSource ∧
    AppendCrossfage segC6a segC6b 1 = Res.panic GoPanic.crossfadeExceedsAppended :=
  ⟨(c6_crossfade_bound_enforcement segC6a segC6b 5 2 0 (by decide) (by decide)).1 (by decide),
   (c6_crossfade_bound_enforcement segC6a segC6b 1 2 0 (by decide) (by decide)).2
     (by decide) (by decide)⟩

/-- C7 counterexample: two one frame segments at 3000 Hz each have
duration 0 ms, but their zero crossfade append has duration 1 ms, so
the duration of append a b 0 is not equal to the sum of the two
durations as the claim states. -/
theorem c7_duration_not_additive :
    AppendCrossfage segC7cx segC7cx 0 = Res.ok (spawn segC7cx (some [0, 0])) ∧
    Len segC7cx = some 0 ∧ Len (spawn segC7cx (some [0, 0])) = some 1 := by decide

/-- C7 amended: for segments with non nil buffers, identical metadata,
positive frame width and rate and whole frame buffers, the zero
crossfade append always succeeds and returns the byte concatenation
under the receiver metadata, Append delegates to it, and the duration
of the result differs from the sum of the two durations by at most one
millisecond (exact additivity fails, see the counterexample). -/
theorem c7_append_zero_concat (a b : AudioSegment) (da db : List Nat)
    (ha : a.data = some da) (hb : b.data = some db)
    (hch : b.channels = a.channels) (hsw : b.sample_width = a.sample_width)
    (hfw : b.frame_width = a.frame_width) (hfr : b.frame_rate = a.frame_rate)
    (hfw0 : 0 < a.frame_width) (hfr0 : 0 < a.frame_rate)
    (hwa : a.frame_width ∣ da.length) (hwb : a.frame_width ∣ db.length) :
    AppendCrossfage a b 0 = Res.ok (spawn a (some (da ++ db))) ∧
    Append a b = AppendCrossfage a b 0 ∧
    ∃ la lb lab, Len a = some la ∧ Len b = some lb ∧
      Len (spawn a (some (da ++ db))) = some lab ∧
      la + lb ≤ lab + 1 ∧ lab ≤ la + lb + 1 := by
  have hwne : ¬ a.frame_width = 0 := by omega
  have hrne : ¬ a.frame_rate = 0 := by omega
  obtain ⟨ka, hka⟩ := hwa
  obtain ⟨kb, hkb⟩ := hwb
  refine ⟨by simp [AppendCrossfage, ha, hb], rfl, ?_⟩
  have hfa : FrameCount a = some ka := by
    simp [FrameCount, ha, hwne, hka, Nat.mul_div_cancel_left ka hfw0]
  have hfb : FrameCount b = some kb := by
    simp [FrameCount, hb, hfw, hwne, hkb, Nat.mul_div_cancel_left kb hfw0]
  have hlen : (da ++ db).length = a.frame_width * (ka + kb) := by
    simp [List.length_append, hka, hkb]
    ring
  have hfab : FrameCount (spawn a (some (da ++ db))) = some (ka + kb) := by
    simp [FrameCount, spawn, hwne, hlen, Nat.mul_div_cancel_left (ka + kb) hfw0]
  refine ⟨(2000 * ka + a.frame_rate) / (2 * a.frame_rate),
          (2000 * kb + a.frame_rate) / (2 * a.frame_rate),
          (2000 * (ka + kb) + a.frame_rate) / (2 * a.frame_rate), ?_, ?_, ?_, ?_, ?_⟩
  · simp [Len, hfa, hrne]
  · simp [Len, hfb, hfr, hrne]
  · simp only [Len, hfab]
    simp [spawn, hrne]
  · have hnear := div_near (2000 * ka) (2000 * kb) a.frame_rate hfr0
    have e : 2000 * (ka + kb) = 2000 * ka + 2000 * kb := Nat.mul_add 2000 ka kb
    rw [e]
    exact hnear.1
  · have hnear := div_near (2000 * ka) (2000 * kb) a.frame_rate hfr0
    have e : 2000 * (ka + kb) = 2000 * ka + 2000 * kb := Nat.mul_add 2000 ka kb
    rw [e]
    exact hnear.2

/-- Witness for C7 at a 2 ms and a 1 ms segment of identical metadata. -/
theorem c7_append_zero_concat_witness :
    AppendCrossfage segC7a segC7b 0 = Res.ok (spawn segC7a (some ([1, 2] ++ [3]))) ∧
    Append segC7a segC7b = AppendCrossfage segC7a segC7b 0 ∧
    ∃ la lb lab, Len segC7a = some la ∧ Len segC7b = some lb ∧
      Len (spawn segC7a (some ([1, 2] ++ [3]))) = some lab ∧
      la + lb ≤ lab + 1 ∧ lab ≤ la + lb + 1 :=
  c7_append_zero_concat segC7a segC7b [1, 2] [3] rfl rfl rfl rfl rfl rfl
    (by decide) (by decide) (by decide) (by decide)

/-- C8 counterexample: on a 20 byte buffer whose bytes at offset 12
carry the data tag, exactly 8 bytes (not fewer than 8) remain at the
scan position, yet the scanner records nothing: the loop guard requires
strictly more than 8 remaining bytes, so the data descriptor the claim
says is still emitted never is. -/
theorem c8_stops_with_eight_remaining :
    extract_wav_headers ex20 = [] ∧ (ex20.drop 12).take 4 = [100, 97, 116, 97] ∧
    ex20.length = 20 := by decide

/-- C8 amended: the scanner starts at offset 12, reads a 4 byte tag and
a little endian 4 byte size, records a descriptor and advances by
8 + size, stopping on the data tag with that descriptor emitted last,
when eight or fewer bytes remain before the end of the buffer, or at 10
chunks; in particular, for a buffer whose data chunk is the second
chunk and whose two chunk headers each end strictly more than 8 bytes
before the end, it returns exactly the two descriptors. -/
theorem c8_scanner_two_chunks (data : List Nat) (size1 : Nat)
    (htag : (data.drop 12).take 4 ≠ [100, 97, 116, 97])
    (hsz : bytes2UInt ((data.drop 16).take 4) = size1)
    (hdata : (data.drop (20 + size1)).take 4 = [100, 97, 116, 97])
    (hlen2 : 20 + size1 + 8 < data.length)
    (hwrap : data.length < 4294967296) :
    extract_wav_headers data =
      [⟨(data.drop 12).take 4, 12, size1⟩,
       ⟨[100, 97, 116, 97], 20 + size1, bytes2UInt ((data.drop (20 + size1 + 4)).take 4)⟩] := by
  have hulen : u32 data.length = data.length := Nat.mod_eq_of_lt hwrap
  have h1 : u32 (12 + 8) < u32 data.length := by
    simp only [u32]
    omega
  have e1 : 12 + size1 + 8 = 20 + size1 := by omega
  have hu20 : u32 (20 + size1) = 20 + size1 := by
    simp only [u32]
    omega
  have h2 : u32 (20 + size1 + 8) < u32 data.length := by
    simp only [u32]
    omega
  unfold extract_wav_headers
  rw [show (10 : Nat) = 9 + 1 from rfl, scanLoop_step data 12 [] 9 h1 (by simp)]
  norm_num
  rw [if_neg htag, hsz, e1, hu20]
  rw [show (9 : Nat) = 8 + 1 from rfl, scanLoop_step data (20 + size1) _ 8 h2 (by simp)]
  rw [if_pos hdata, hdata]
  simp

/-- Witness for C8: a 35 byte buffer holding a fmt chunk of size 2
followed by a data chunk of size 5 at position 22 yields exactly the
two descriptors. -/
theorem c8_scanner_two_chunks_witness :
    extract_wav_headers buf8 =
      [⟨(buf8.drop 12).take 4, 12, 2⟩,
       ⟨[100, 97, 116, 97], 20 + 2, bytes2UInt ((buf8.drop (20 + 2 + 4)).take 4)⟩] :=
  c8_scanner_two_chunks buf8 2 (by decide) (by decide) (by decide) (by decide) (by decide)

/-- C9: for every format string other than wav, Export selects the
silent no-op outcome, returning without any action and without an
error, and From_file returns a nil segment without an error: the
format selection interface has no error path. -/
theorem c9_nonwav_silently_ignored (p : AudioSegment) (file format : String)
    (h : format ≠ "wav") :
    Export p format = ExportOutcome.silentNoop ∧
    From_file file format = FromFileOutcome.nilNoError := by
  simp [Export, From_file, h]

/-- Witness for C9 at the format string mp3. -/
theorem c9_nonwav_silently_ignored_witness :
    ("mp3" ≠ "wav") ∧
    (Export segC9 "mp3" = ExportOutcome.silentNoop ∧
     From_file "song.mp3" "mp3" = FromFileOutcome.nilNoError) :=
  ⟨by decide, c9_nonwav_silently_ignored segC9 "song.mp3" "mp3" (by decide)⟩

/-- C10: the zero valued segment returned by NewAudioSegment has
frame_width 0, frame_rate 0 and a nil data pointer; FrameCount and Len
are undefined on it, FrameCount stays undefined even when sample bytes
are supplied because of its unguarded division by frame_width 0, and
both metrics are defined on every segment with a non nil buffer and
positive frame_width and frame_rate. -/
theorem c10_zero_segment_metrics :
    (NewAudioSegment.frame_width = 0 ∧ NewAudioSegment.frame_rate = 0 ∧
     FrameCount NewAudioSegment = none ∧ Len NewAudioSegment = none ∧
     (∀ d : List Nat, FrameCount (spawn NewAudioSegment (some d)) = none)) ∧
    (∀ s : AudioSegment, s.data ≠ none → 0 < s.frame_width → 0 < s.frame_rate →
      FrameCount s ≠ none ∧ Len s ≠ none) := by
  refine ⟨⟨rfl, rfl, rfl, rfl, fun d => ?_⟩, fun s hd hfw hfr => ?_⟩
  · simp [FrameCount, spawn, NewAudioSegment]
  · have hw : ¬ s.frame_width = 0 := by omega
    have hr : ¬ s.frame_rate = 0 := by omega
    match h : s.data with
    | none => exact absurd h hd
    | some d => simp [FrameCount, Len, h, hw, hr]

/-- Witness for C10: the metrics are defined on a concrete one frame
8000 Hz segment. -/
theorem c10_zero_segment_metrics_witness :
    segC10.data ≠ none ∧ (FrameCount segC10 ≠ none ∧ Len segC10 ≠ none) :=
  ⟨by decide, c10_zero_segment_metrics.2 segC10 (by decide) (by decide) (by decide)⟩

end Godub
